import Mathlib

/-!
Verification of the diagnostics-orchestration core of the Perl Navigator
language server (src/server/src/server.ts), as a shallow embedding.

The server keeps three pieces of mutable state relevant here:
  * `globalSettings` and the per-document `documentSettings` cache
    (a `Map<string, Thenable<NavigatorSettings>>`),
  * `documentDiags` (a `Map<string, Diagnostic[]>`), the retention store
    for recent perlcritic diagnostics,
  * the stream of `connection.sendDiagnostics` calls, modelled as an
    append-only `published` log.

Settled promises are modelled as `Except String _` values (a `Thenable`
that is either resolved or rejected).  The two external analyses
(`perlcompile`, `perlcritic`) are external collaborators whose resolved
diagnostic lists enter the orchestrator as parameters.  Within one
validation run the single-threaded cooperative scheduler executes the
statements of `validatePerlDocument` in source order; the run is split
into its two awaited stages so that state from other interleaved work
can be threaded in between.
-/

set_option autoImplicit false

/-- Diagnostic record as seen by the orchestrator: the orchestration core
treats diagnostics as opaque structured issues; only identity matters. -/
structure Diagnostic where
  line : Nat
  message : String
  severity : Nat
  deriving DecidableEq, Repr

/-- Settings record, mirroring `NavigatorSettings` as witnessed by the
fields of `defaultSettings` in server.ts. -/
structure NavigatorSettings where
  perlPath : String
  enableAllWarnings : Bool
  perlcriticPath : String
  perlcriticProfile : String
  severity5 : String
  severity4 : String
  severity3 : String
  severity2 : String
  severity1 : String
  includePaths : List String
  deriving DecidableEq, Repr

/-- The compile-time defaults from server.ts lines 82-93. -/
def defaultSettings : NavigatorSettings :=
  { perlPath := "perl"
    enableAllWarnings := false
    perlcriticPath := "perlcritic"
    perlcriticProfile := ""
    severity5 := "warning"
    severity4 := "hint"
    severity3 := "hint"
    severity2 := "hint"
    severity1 := "hint"
    includePaths := [] }

/-- A settled JS `Thenable`: resolved with a value or rejected with an error. -/
abbrev Thenable (α : Type) := Except String α

deriving instance DecidableEq for Except

/-- Association-list lookup modelling `Map.get`. -/
def mapGet {α : Type} : List (String × α) → String → Option α
  | [], _ => none
  | (k', v) :: rest, k => if k' = k then some v else mapGet rest k

/-- Removal of a key, modelling `Map.delete`. -/
def mapDelete {α : Type} : List (String × α) → String → List (String × α)
  | [], _ => []
  | (k', v) :: rest, k =>
      if k' = k then mapDelete rest k else (k', v) :: mapDelete rest k

/-- Insert-or-overwrite, modelling `Map.set`. -/
def mapSet {α : Type} (m : List (String × α)) (k : String) (v : α) :
    List (String × α) :=
  (k, v) :: mapDelete m k

/-- The server's mutable state: the configuration capability flag, both
settings stores, the diagnostic retention store `documentDiags`, and the
log of `sendDiagnostics` publications (uri, diagnostics), oldest first. -/
structure ServerState where
  hasConfigurationCapability : Bool
  globalSettings : NavigatorSettings
  documentSettings : List (String × Thenable NavigatorSettings)
  documentDiags : List (String × List Diagnostic)
  published : List (String × List Diagnostic)
  deriving DecidableEq, Repr

/-- Settings resolution `getDocumentSettings` (server.ts lines 116-129).  `configResponse` is
the `Thenable` the environment would return for a fresh
`connection.workspace.getConfiguration` request; it is consulted only on a
cache miss, exactly as in the source. -/
def getDocumentSettings (resource : String) (st : ServerState)
    (configResponse : Thenable NavigatorSettings) :
    Thenable NavigatorSettings × ServerState :=
  if st.hasConfigurationCapability = false then
    (Except.ok st.globalSettings, st)
  else
    match mapGet st.documentSettings resource with
    | some result => (result, st)
    | none =>
        (configResponse,
         { st with documentSettings :=
             mapSet st.documentSettings resource configResponse })

/-- Close handler (server.ts lines 132-136): drop both cache entries and
publish an empty diagnostic list for the closed document. -/
def onDidClose (uri : String) (st : ServerState) : ServerState :=
  { st with
    documentSettings := mapDelete st.documentSettings uri
    documentDiags := mapDelete st.documentDiags uri
    published := st.published ++ [(uri, [])] }

/-- A validation run dispatched by the bulk-revalidation loop. -/
structure ValidationRun where
  uri : String
  deriving DecidableEq, Repr

/-- Configuration-change handler (server.ts lines 103-114).
`settingsSection` is the payload's `perlnavigator` section when present
(`change.settings.perlnavigator || defaultSettings`); `openDocuments` is
`documents.all()`.  The handler mutates the settings state and starts one
validation run per open document (`forEach(validatePerlDocument)`);
the dispatched runs are returned alongside the new state. -/
def onDidChangeConfiguration (settingsSection : Option NavigatorSettings)
    (openDocuments : List String) (st : ServerState) :
    ServerState × List ValidationRun :=
  let st1 :=
    if st.hasConfigurationCapability then
      { st with documentSettings := [] }
    else
      { st with globalSettings := settingsSection.getD defaultSettings }
  (st1, openDocuments.map (fun uri => ⟨uri⟩))

/-- Events of one validation run, in the order the corresponding
statements appear in `validatePerlDocument` (server.ts lines 148-175). -/
inductive RunEvent where
  | awaitSettings
  | awaitWorkspaceFolders
  | invokeFastCheck
  | invokeLintCheck
  | awaitFastCheck
  | readStore
  | sendStage1
  | awaitLintCheck
  | writeStore
  | sendStage2
  deriving DecidableEq, Repr

/-- Stage 1 of a validation run (server.ts lines 158-166): after
`await pCompile` resolves with `diagPerl`, read the retained critic
diagnostics, concatenate (`diagPerl.concat(allDiags)`) when a snapshot
exists, and publish. -/
def stage1 (uri : String) (diagPerl : List Diagnostic) (st : ServerState) :
    ServerState × List RunEvent :=
  let allDiags := mapGet st.documentDiags uri
  let mixOldAndNew :=
    match allDiags with
    | some old => diagPerl ++ old
    | none => diagPerl
  ({ st with published := st.published ++ [(uri, mixOldAndNew)] },
   [.awaitFastCheck, .readStore, .sendStage1])

/-- Stage 2 of a validation run (server.ts lines 168-172): after
`await pCritic` resolves with `diagCritic`, overwrite the retention store
entry and publish `diagPerl.concat(diagCritic)`. -/
def stage2 (uri : String) (diagPerl diagCritic : List Diagnostic)
    (st : ServerState) : ServerState × List RunEvent :=
  let st1 := { st with documentDiags := mapSet st.documentDiags uri diagCritic }
  ({ st1 with published := st1.published ++ [(uri, diagPerl ++ diagCritic)] },
   [.awaitLintCheck, .writeStore, .sendStage2])

/-- One uninterrupted validation run (`validatePerlDocument`, server.ts
lines 148-175): await settings (a rejected settings promise makes the
`await` throw out of the async function, so the run ends with no publish),
await the workspace folders, start `perlcompile` and `perlcritic`, then
run stage 1 and stage 2.  `diagPerl` and `diagCritic` are the diagnostic
lists with which the two external analyses resolve.  Returns the new state
and the run's event trace. -/
def validatePerlDocument (uri : String)
    (configResponse : Thenable NavigatorSettings)
    (diagPerl diagCritic : List Diagnostic) (st : ServerState) :
    ServerState × List RunEvent :=
  match getDocumentSettings uri st configResponse with
  | (Except.error _, st0) => (st0, [.awaitSettings])
  | (Except.ok _, st0) =>
      let (st1, t1) := stage1 uri diagPerl st0
      let (st2, t2) := stage2 uri diagPerl diagCritic st1
      (st2,
       [.awaitSettings, .awaitWorkspaceFolders,
        .invokeFastCheck, .invokeLintCheck] ++ t1 ++ t2)

/-- Modelled from the spec: the analysis engines `perlcompile` and
`perlcritic` live in the `diagnostics` module, which is not part of the
sources at hand.  Per the spec (Analysis Gateway), each takes the file
path, workspace folders and settings and resolves with a diagnostic list;
the orchestrator-visible input is the outcome of the underlying external
process. -/
inductive AnalysisOutcome where
  | success (diags : List Diagnostic)
  | processFailure (message : String)
  deriving DecidableEq, Repr

/-- Modelled from the spec: `perlcompile` (the fast check) degrades a
failure of the external process to an empty diagnostic sequence and never
rejects, so no unhandled fault reaches the orchestrator. -/
def perlcompile : AnalysisOutcome → List Diagnostic
  | .success diags => diags
  | .processFailure _ => []

/-- Modelled from the spec: `perlcritic` (the lint check) obeys the same
failure-degradation contract as `perlcompile`. -/
def perlcritic : AnalysisOutcome → List Diagnostic
  | .success diags => diags
  | .processFailure _ => []

/-! ### Helper lemmas about the map operations and the run -/

theorem mapGet_mapDelete_self {α : Type} (m : List (String × α)) (k : String) :
    mapGet (mapDelete m k) k = none := by
  induction m with
  | nil => rfl
  | cons p rest ih =>
      obtain ⟨k', v⟩ := p
      by_cases h : k' = k
      · simp [mapDelete, h, ih]
      · simp [mapDelete, mapGet, h, ih]

theorem mapGet_mapDelete_ne {α : Type} (m : List (String × α)) (k k' : String)
    (h : k ≠ k') : mapGet (mapDelete m k) k' = mapGet m k' := by
  induction m with
  | nil => rfl
  | cons p rest ih =>
      obtain ⟨k0, v⟩ := p
      by_cases h0 : k0 = k
      · subst h0
        simp [mapDelete, mapGet, h, ih]
      · by_cases h1 : k0 = k'
        · simp [mapDelete, mapGet, h0, h1, Ne.symm h]
        · simp [mapDelete, mapGet, h0, h1, ih]

theorem mapGet_mapSet_self {α : Type} (m : List (String × α)) (k : String)
    (v : α) : mapGet (mapSet m k v) k = some v := by
  simp [mapSet, mapGet]

theorem mapGet_mapSet_ne {α : Type} (m : List (String × α)) (k k' : String)
    (v : α) (h : k ≠ k') : mapGet (mapSet m k v) k' = mapGet m k' := by
  simp [mapSet, mapGet, h, mapGet_mapDelete_ne m k k' h]

theorem getDocumentSettings_frame (resource : String) (st : ServerState)
    (r : Thenable NavigatorSettings) :
    (getDocumentSettings resource st r).2.documentDiags = st.documentDiags ∧
    (getDocumentSettings resource st r).2.published = st.published ∧
    (getDocumentSettings resource st r).2.hasConfigurationCapability
      = st.hasConfigurationCapability ∧
    (getDocumentSettings resource st r).2.globalSettings = st.globalSettings := by
  unfold getDocumentSettings
  by_cases hc : st.hasConfigurationCapability = false
  · simp [hc]
  · cases hm : mapGet st.documentSettings resource <;> simp [hc, hm]

/-- The full published log of one successful run, in terms of the state
seen at its start. -/
theorem validatePerlDocument_published (uri : String)
    (r : Thenable NavigatorSettings) (s : NavigatorSettings)
    (dP dC : List Diagnostic) (st : ServerState)
    (hok : (getDocumentSettings uri st r).1 = Except.ok s) :
    (validatePerlDocument uri r dP dC st).1.published =
      st.published ++
        [(uri, dP ++ (mapGet st.documentDiags uri).getD []),
         (uri, dP ++ dC)] := by
  unfold validatePerlDocument
  obtain ⟨hd, hp, _, _⟩ := getDocumentSettings_frame uri st r
  cases hr : getDocumentSettings uri st r with
  | mk fst snd =>
      rw [hr] at hok hd hp
      subst hok
      simp only [stage1, stage2]
      cases hm : mapGet snd.documentDiags uri <;>
        simp_all [List.append_assoc]

/-- The retention store after one successful run: the entry for the run's
document is overwritten with the critic diagnostics, wholesale. -/
theorem validatePerlDocument_documentDiags (uri : String)
    (r : Thenable NavigatorSettings) (s : NavigatorSettings)
    (dP dC : List Diagnostic) (st : ServerState)
    (hok : (getDocumentSettings uri st r).1 = Except.ok s) :
    (validatePerlDocument uri r dP dC st).1.documentDiags =
      mapSet st.documentDiags uri dC := by
  unfold validatePerlDocument
  obtain ⟨hd, hp, _, _⟩ := getDocumentSettings_frame uri st r
  cases hr : getDocumentSettings uri st r with
  | mk fst snd =>
      rw [hr] at hok hd hp
      subst hok
      simp only [stage1, stage2]
      cases hm : mapGet snd.documentDiags uri <;> simp_all

/-- The event trace of a successful run is the statement order of
`validatePerlDocument`. -/
theorem validatePerlDocument_trace (uri : String)
    (r : Thenable NavigatorSettings) (s : NavigatorSettings)
    (dP dC : List Diagnostic) (st : ServerState)
    (hok : (getDocumentSettings uri st r).1 = Except.ok s) :
    (validatePerlDocument uri r dP dC st).2 =
      [.awaitSettings, .awaitWorkspaceFolders, .invokeFastCheck,
       .invokeLintCheck, .awaitFastCheck, .readStore, .sendStage1,
       .awaitLintCheck, .writeStore, .sendStage2] := by
  unfold validatePerlDocument
  cases hr : getDocumentSettings uri st r with
  | mk fst snd =>
      rw [hr] at hok
      subst hok
      simp [stage1, stage2]

/-! ### Concrete fixtures used by witnesses -/

/-- A fast-check (compile) diagnostic. -/
def diagCompileErr : Diagnostic := ⟨3, "syntax error", 2⟩

/-- A lint-check (critic) diagnostic. -/
def diagStyle : Diagnostic := ⟨10, "style: missing strict", 1⟩

/-- Example document. -/
def uriA : String := "file:///a.pl"

/-- A second, distinct document. -/
def uriB : String := "file:///b.pl"

/-- A state holding a retained critic snapshot for `uriA`, with the
configuration capability absent (settings resolve from the global value). -/
def stSnap : ServerState :=
  { hasConfigurationCapability := false
    globalSettings := defaultSettings
    documentSettings := []
    documentDiags := [(uriA, [diagStyle])]
    published := [] }

/-- A state with the configuration capability present and empty caches. -/
def stCfg : ServerState :=
  { hasConfigurationCapability := true
    globalSettings := defaultSettings
    documentSettings := []
    documentDiags := []
    published := [] }

/-! ### Claim theorems -/

/-- Claim C1: in every validation run whose settings resolve, the stage-1
publish is exactly the fast-check diagnostics followed by the retained
lint-check snapshot when a snapshot exists, and the fast-check diagnostics
alone when none exists; in particular, with a snapshot `S` present, a run
whose fast check returns no diagnostics still publishes `S` at stage 1. -/
theorem stage1_publish_mixes_snapshot (uri : String)
    (r : Thenable NavigatorSettings) (s : NavigatorSettings)
    (dP dC : List Diagnostic) (st : ServerState)
    (hok : (getDocumentSettings uri st r).1 = Except.ok s) :
    (∀ S, mapGet st.documentDiags uri = some S →
        (validatePerlDocument uri r dP dC st).1.published
          = st.published ++ [(uri, dP ++ S), (uri, dP ++ dC)] ∧
        (validatePerlDocument uri r [] dC st).1.published
          = st.published ++ [(uri, S), (uri, dC)]) ∧
    (mapGet st.documentDiags uri = none →
        (validatePerlDocument uri r dP dC st).1.published
          = st.published ++ [(uri, dP), (uri, dP ++ dC)]) := by
  refine ⟨fun S hS => ⟨?_, ?_⟩, fun hN => ?_⟩
  · rw [validatePerlDocument_published uri r s dP dC st hok, hS]
    simp
  · rw [validatePerlDocument_published uri r s [] dC st hok, hS]
    simp
  · rw [validatePerlDocument_published uri r s dP dC st hok, hN]
    simp

/-- Claim C1 witness: with snapshot `[diagStyle]` retained for `uriA` and a
fast check returning nothing, stage 1 republishes the snapshot. -/
theorem stage1_publish_mixes_snapshot_witness :
    (validatePerlDocument uriA (Except.ok defaultSettings) [] [diagStyle]
        stSnap).1.published
      = stSnap.published ++ [(uriA, [diagStyle]), (uriA, [diagStyle])] :=
  ((stage1_publish_mixes_snapshot uriA (Except.ok defaultSettings)
      defaultSettings [] [diagStyle] stSnap (by decide)).1
    [diagStyle] (by decide)).2

/-- Claim C2: in every validation run whose settings resolve, the lint
completion overwrites the retention-store entry wholesale with the fresh
lint diagnostics, and the stage-2 publish is exactly the run's fast-check
diagnostics followed by the fresh lint diagnostics — the fast-check portion
being the same `dP` that stage 1 published. -/
theorem stage2_publish_and_overwrite (uri : String)
    (r : Thenable NavigatorSettings) (s : NavigatorSettings)
    (dP dC : List Diagnostic) (st : ServerState)
    (hok : (getDocumentSettings uri st r).1 = Except.ok s) :
    (validatePerlDocument uri r dP dC st).1.documentDiags
      = mapSet st.documentDiags uri dC ∧
    mapGet (validatePerlDocument uri r dP dC st).1.documentDiags uri
      = some dC ∧
    (validatePerlDocument uri r dP dC st).1.published
      = st.published ++
          [(uri, dP ++ (mapGet st.documentDiags uri).getD []),
           (uri, dP ++ dC)] := by
  refine ⟨?_, ?_, ?_⟩
  · exact validatePerlDocument_documentDiags uri r s dP dC st hok
  · rw [validatePerlDocument_documentDiags uri r s dP dC st hok]
    exact mapGet_mapSet_self _ _ _
  · exact validatePerlDocument_published uri r s dP dC st hok

/-- Claim C2 witness: concrete run over `stSnap`. -/
theorem stage2_publish_and_overwrite_witness :
    mapGet (validatePerlDocument uriA (Except.ok defaultSettings)
        [diagCompileErr] [diagStyle] stSnap).1.documentDiags uriA
      = some [diagStyle] :=
  (stage2_publish_and_overwrite uriA (Except.ok defaultSettings)
      defaultSettings [diagCompileErr] [diagStyle] stSnap (by decide)).2.1

/-- Claim C3: after the close handler runs for a document, neither the
settings cache nor the retention store holds an entry for its URI, and an
empty publish for that URI has been issued. -/
theorem onDidClose_clears_entries (uri : String) (st : ServerState) :
    mapGet (onDidClose uri st).documentSettings uri = none ∧
    mapGet (onDidClose uri st).documentDiags uri = none ∧
    (uri, ([] : List Diagnostic)) ∈ (onDidClose uri st).published := by
  refine ⟨mapGet_mapDelete_self _ _, mapGet_mapDelete_self _ _, ?_⟩
  simp [onDidClose]

/-- Claim C4: on a configuration change, when scoped requests are supported
the per-document settings cache is emptied, otherwise the global settings
value is replaced wholesale by the payload's section (defaults when the
section is absent); in both cases exactly one fresh validation run is
started per open document. -/
theorem onDidChangeConfiguration_behaviour (payload : Option NavigatorSettings)
    (openDocs : List String) (st : ServerState) :
    (onDidChangeConfiguration payload openDocs st).1.documentSettings
      = (if st.hasConfigurationCapability then []
         else st.documentSettings) ∧
    (onDidChangeConfiguration payload openDocs st).1.globalSettings
      = (if st.hasConfigurationCapability then st.globalSettings
         else payload.getD defaultSettings) ∧
    ((onDidChangeConfiguration payload openDocs st).2).map ValidationRun.uri
      = openDocs ∧
    ((onDidChangeConfiguration payload openDocs st).2).length
      = openDocs.length := by
  unfold onDidChangeConfiguration
  by_cases hc : st.hasConfigurationCapability <;> simp [hc] <;>
    exact List.map_id openDocs

/-- Claim C5: in every validation run whose settings resolve, both analyses
are invoked before either result is awaited; in particular the lint check
is invoked strictly before the fast check's result is consumed. -/
theorem dispatch_not_serialized (uri : String)
    (r : Thenable NavigatorSettings) (s : NavigatorSettings)
    (dP dC : List Diagnostic) (st : ServerState)
    (hok : (getDocumentSettings uri st r).1 = Except.ok s) :
    ∃ iF iL jF jL : Nat,
      ((validatePerlDocument uri r dP dC st).2)[iF]?
          = some RunEvent.invokeFastCheck ∧
      ((validatePerlDocument uri r dP dC st).2)[iL]?
          = some RunEvent.invokeLintCheck ∧
      ((validatePerlDocument uri r dP dC st).2)[jF]?
          = some RunEvent.awaitFastCheck ∧
      ((validatePerlDocument uri r dP dC st).2)[jL]?
          = some RunEvent.awaitLintCheck ∧
      iF < jF ∧ iF < jL ∧ iL < jF ∧ iL < jL := by
  rw [validatePerlDocument_trace uri r s dP dC st hok]
  exact ⟨2, 3, 4, 7, rfl, rfl, rfl, rfl,
    by decide, by decide, by decide, by decide⟩

/-- Claim C5 witness: the dispatch ordering on a concrete run. -/
theorem dispatch_not_serialized_witness :
    ∃ iF iL jF jL : Nat,
      ((validatePerlDocument uriA (Except.ok defaultSettings)
          [diagCompileErr] [diagStyle] stSnap).2)[iF]?
          = some RunEvent.invokeFastCheck ∧
      ((validatePerlDocument uriA (Except.ok defaultSettings)
          [diagCompileErr] [diagStyle] stSnap).2)[iL]?
          = some RunEvent.invokeLintCheck ∧
      ((validatePerlDocument uriA (Except.ok defaultSettings)
          [diagCompileErr] [diagStyle] stSnap).2)[jF]?
          = some RunEvent.awaitFastCheck ∧
      ((validatePerlDocument uriA (Except.ok defaultSettings)
          [diagCompileErr] [diagStyle] stSnap).2)[jL]?
          = some RunEvent.awaitLintCheck ∧
      iF < jF ∧ iF < jL ∧ iL < jF ∧ iL < jL :=
  dispatch_not_serialized uriA (Except.ok defaultSettings) defaultSettings
    [diagCompileErr] [diagStyle] stSnap (by decide)

/-- Claim C6: with the gateway's failure-degradation contract (a process
failure degrades to an empty result and never rejects), a run whose
settings resolve still performs both publishes even when one analysis
fails, and the stage-2 payload keeps the sibling analysis's diagnostics
intact. -/
theorem analysis_failure_contained (uri : String)
    (r : Thenable NavigatorSettings) (s : NavigatorSettings)
    (st : ServerState) (oF oL : AnalysisOutcome)
    (hok : (getDocumentSettings uri st r).1 = Except.ok s)
    (hfail : (∃ m, oF = AnalysisOutcome.processFailure m) ∨
             (∃ m, oL = AnalysisOutcome.processFailure m)) :
    (validatePerlDocument uri r (perlcompile oF) (perlcritic oL)
        st).1.published
      = st.published ++
          [(uri, perlcompile oF ++ (mapGet st.documentDiags uri).getD []),
           (uri, perlcompile oF ++ perlcritic oL)] ∧
    (∀ m, oF = AnalysisOutcome.processFailure m →
        perlcompile oF ++ perlcritic oL = perlcritic oL) ∧
    (∀ m, oL = AnalysisOutcome.processFailure m →
        perlcompile oF ++ perlcritic oL = perlcompile oF) := by
  refine ⟨validatePerlDocument_published uri r s _ _ st hok, ?_, ?_⟩
  · intro m hm
    subst hm
    simp [perlcompile]
  · intro m hm
    subst hm
    simp [perlcritic]

/-- Claim C6 witness: a failing lint check over `stSnap` still yields both
publishes, with the fast-check diagnostics intact at stage 2. -/
theorem analysis_failure_contained_witness :
    (validatePerlDocument uriA (Except.ok defaultSettings)
        (perlcompile (AnalysisOutcome.success [diagCompileErr]))
        (perlcritic (AnalysisOutcome.processFailure "tool missing"))
        stSnap).1.published
      = stSnap.published ++
          [(uriA, perlcompile (AnalysisOutcome.success [diagCompileErr])
              ++ (mapGet stSnap.documentDiags uriA).getD []),
           (uriA, perlcompile (AnalysisOutcome.success [diagCompileErr])
              ++ perlcritic (AnalysisOutcome.processFailure "tool missing"))] :=
  (analysis_failure_contained uriA (Except.ok defaultSettings)
      defaultSettings stSnap (AnalysisOutcome.success [diagCompileErr])
      (AnalysisOutcome.processFailure "tool missing") (by decide)
      (Or.inr ⟨"tool missing", rfl⟩)).1

/-- Claim C7: when scoped configuration is supported and the cache holds no
entry, `getDocumentSettings` hands back the environment's response
unchanged — a rejected request is returned as that same rejection, with no
substitution of defaults. -/
theorem settings_failure_propagates (resource : String) (st : ServerState)
    (r : Thenable NavigatorSettings)
    (hc : st.hasConfigurationCapability = true)
    (hm : mapGet st.documentSettings resource = none) :
    (getDocumentSettings resource st r).1 = r ∧
    (∀ e, r = Except.error e →
        (getDocumentSettings resource st r).1 = Except.error e) := by
  unfold getDocumentSettings
  refine ⟨?_, ?_⟩
  · simp [hc, hm]
  · intro e he
    subst he
    simp [hc, hm]

/-- Claim C7 witness: a rejected scoped request is returned as-is. -/
theorem settings_failure_propagates_witness :
    (getDocumentSettings uriA stCfg (Except.error "request failed")).1
      = Except.error "request failed" :=
  (settings_failure_propagates uriA stCfg (Except.error "request failed")
      (by decide) (by decide)).1

/-- Claim C8: two consecutive runs of the same document whose analyses
return the same diagnostics (no intervening edits) issue identical stage-2
publishes. -/
theorem retention_idempotence (uri : String)
    (r1 r2 : Thenable NavigatorSettings) (s1 s2 : NavigatorSettings)
    (dP dC : List Diagnostic) (st : ServerState)
    (h1 : (getDocumentSettings uri st r1).1 = Except.ok s1)
    (h2 : (getDocumentSettings uri
        (validatePerlDocument uri r1 dP dC st).1 r2).1 = Except.ok s2) :
    ((validatePerlDocument uri r1 dP dC st).1.published).getLast?
      = some (uri, dP ++ dC) ∧
    ((validatePerlDocument uri r2 dP dC
        (validatePerlDocument uri r1 dP dC st).1).1.published).getLast?
      = some (uri, dP ++ dC) := by
  constructor
  · rw [validatePerlDocument_published uri r1 s1 dP dC st h1]
    simp [List.getLast?_concat]
  · rw [validatePerlDocument_published uri r2 s2 dP dC _ h2]
    simp [List.getLast?_concat]

/-- Claim C8 witness: two identical back-to-back runs over `stSnap`. -/
theorem retention_idempotence_witness :
    ((validatePerlDocument uriA (Except.ok defaultSettings)
        [diagCompileErr] [diagStyle]
        (validatePerlDocument uriA (Except.ok defaultSettings)
          [diagCompileErr] [diagStyle] stSnap).1).1.published).getLast?
      = some (uriA, [diagCompileErr] ++ [diagStyle]) :=
  (retention_idempotence uriA (Except.ok defaultSettings)
      (Except.ok defaultSettings) defaultSettings defaultSettings
      [diagCompileErr] [diagStyle] stSnap (by decide) (by decide)).2

/-- Claim C9: a rejected scoped configuration request is stored in the
settings cache; every later `getDocumentSettings` call for that document
returns the same rejection without touching the environment, until the
entry disappears on a configuration change or on close. -/
theorem rejected_settings_cached (resource : String) (st : ServerState)
    (e : String) (payload : Option NavigatorSettings)
    (openDocs : List String)
    (hc : st.hasConfigurationCapability = true)
    (hm : mapGet st.documentSettings resource = none) :
    mapGet ((getDocumentSettings resource st
        (Except.error e)).2).documentSettings resource
      = some (Except.error e) ∧
    (∀ r', getDocumentSettings resource
        ((getDocumentSettings resource st (Except.error e)).2) r'
        = (Except.error e,
           (getDocumentSettings resource st (Except.error e)).2)) ∧
    mapGet ((onDidChangeConfiguration payload openDocs
        ((getDocumentSettings resource st
            (Except.error e)).2)).1.documentSettings) resource = none ∧
    mapGet ((onDidClose resource ((getDocumentSettings resource st
        (Except.error e)).2)).documentSettings) resource = none := by
  have hstep : (getDocumentSettings resource st (Except.error e)).2
      = { st with documentSettings :=
            mapSet st.documentSettings resource (Except.error e) } := by
    unfold getDocumentSettings
    simp [hc, hm]
  refine ⟨?_, ?_, ?_, ?_⟩
  · rw [hstep]
    exact mapGet_mapSet_self _ _ _
  · intro r'
    rw [hstep]
    unfold getDocumentSettings
    simp [hc, mapGet_mapSet_self]
  · rw [hstep]
    unfold onDidChangeConfiguration
    simp [hc, mapGet]
  · rw [hstep]
    simp [onDidClose, mapGet_mapDelete_self]

/-- Claim C9 witness: a failed request for `uriA` is cached as failed. -/
theorem rejected_settings_cached_witness :
    mapGet ((getDocumentSettings uriA stCfg
        (Except.error "boom")).2).documentSettings uriA
      = some (Except.error "boom") :=
  (rejected_settings_cached uriA stCfg "boom" none [] (by decide)
      (by decide)).1

/-- Claim C10: stage 1 and the settings phase never write the retention
store; only stage 2 does, overwriting exactly the run's document entry and
leaving every other document's entry unchanged. -/
theorem store_frame (uri : String) (dP dC : List Diagnostic)
    (st : ServerState) :
    (stage1 uri dP st).1.documentDiags = st.documentDiags ∧
    (∀ r, (getDocumentSettings uri st r).2.documentDiags
        = st.documentDiags) ∧
    mapGet (stage2 uri dP dC st).1.documentDiags uri = some dC ∧
    (∀ k, k ≠ uri → mapGet (stage2 uri dP dC st).1.documentDiags k
        = mapGet st.documentDiags k) := by
  refine ⟨?_, ?_, ?_, ?_⟩
  · cases hm : mapGet st.documentDiags uri <;> simp [stage1, hm]
  · intro r
    exact (getDocumentSettings_frame uri st r).1
  · simp [stage2, mapGet_mapSet_self]
  · intro k hk
    simp [stage2, mapGet_mapSet_ne st.documentDiags uri k dC (Ne.symm hk)]

/-- Claim C10 witness: a stage-2 write for `uriA` leaves `uriB`'s entry
unchanged. -/
theorem store_frame_witness :
    mapGet (stage2 uriA [diagCompileErr] [diagStyle] stSnap).1.documentDiags uriB
      = mapGet stSnap.documentDiags uriB :=
  (store_frame uriA [diagCompileErr] [diagStyle] stSnap).2.2.2 uriB (by decide)
